import Mathlib

/-!
Verification of the record-video-tag widget (src/src/components/VideoRecorder.tsx).

The component is a single React function component whose observable state is
the `RecordingState` record, the `videoUrl` / `isVideoLoaded` flags and a few
mutable refs (recorder, draw-interval timer, recorded chunk list).  We embed
that state as `WidgetState` and each event handler of the component as a pure
state-transition function.  Platform behaviour that the handlers branch on
(presence of the video/canvas refs, canvas 2d-context availability, audio-graph
construction success, `MediaRecorder.isTypeSupported`, recorder-constructor
success) is passed in explicitly as a `StartEnv` record, so every run of the
original code corresponds to one choice of environment.
-/

namespace RecordVideoTag

/-- A binary blob: byte contents plus a MIME type string, mirroring the parts
of the browser `Blob` the component observes (`size` and `type`). -/
structure Blob where
  data : List Nat
  type : String
deriving Repr, DecidableEq

/-- `Blob.size` is the byte length, as read by `event.data.size`. -/
def Blob.size (b : Blob) : Nat := b.data.length

/-- The `RecordingState` record of the component (VideoRecorder.tsx lines 4-9). -/
structure RecordingState where
  isRecording : Bool
  isPaused : Bool
  recordedBlob : Option Blob
  error : Option String
deriving Repr, DecidableEq

/-- A media stream, abstracted to its video and audio track counts, which is
all the component observes of it. -/
structure MediaStreamModel where
  videoTracks : Nat
  audioTracks : Nat
deriving Repr, DecidableEq

/-- A constructed `MediaRecorder`: the stream it records and the negotiated
MIME type it reports back via `recorder.mimeType`. -/
structure MediaRecorderModel where
  stream : MediaStreamModel
  mimeType : String
deriving Repr, DecidableEq

/-- The full component state: the `useState` values plus the mutable refs.
`drawIntervalActive` models whether `drawIntervalRef.current` holds a live
interval timer; `playbackBlob` models the blob whose object URL was assigned
to the recorded-video element in the stop handler. -/
structure WidgetState where
  recordingState : RecordingState
  videoUrl : String
  isVideoLoaded : Bool
  recorderRef : Option MediaRecorderModel
  drawIntervalActive : Bool
  recordedChunksRef : List Blob
  canvasWidth : Nat
  canvasHeight : Nat
  playbackBlob : Option Blob
deriving Repr, DecidableEq

/-- A thrown JavaScript value: either an `Error` object carrying a message or
some non-`Error` value (the catch block distinguishes the two). -/
inductive Thrown where
  | errorObj (msg : String)
  | nonError
deriving Repr, DecidableEq

/-- The message the catch block derives from a thrown value:
`error instanceof Error ? error.message : 'Recording failed'`. -/
def thrownMessage : Thrown → String
  | Thrown.errorObj m => m
  | Thrown.nonError => "Recording failed"

/-- Platform environment for one invocation of `startRecording`: which refs
are populated, whether the canvas yields a 2d context, the source dimensions,
whether audio-graph construction succeeds (and how many audio tracks the
capture destination stream carries), the codec support predicate, and whether
the `MediaRecorder` constructor throws. -/
structure StartEnv where
  videoPresent : Bool
  canvasPresent : Bool
  ctxAvailable : Bool
  videoWidth : Nat
  videoHeight : Nat
  audioOk : Bool
  destAudioTracks : Nat
  isTypeSupported : String → Bool
  recorderCtorFail : Option Thrown

/-- The codec fallback chain of lines 91-100, in source order. -/
def mimeCandidates : List String :=
  ["video/webm;codecs=vp9,opus", "video/webm;codecs=vp8,opus", "video/webm", "video/mp4"]

/-- The chained `if (!MediaRecorder.isTypeSupported(options.mimeType))`
reassignments of lines 91-100, literally: start from vp9+opus and demote step
by step while the current choice is unsupported. -/
def selectMimeType (supported : String → Bool) : String :=
  let options := "video/webm;codecs=vp9,opus"
  let options := if !(supported options) then "video/webm;codecs=vp8,opus" else options
  let options := if !(supported options) then "video/webm" else options
  let options := if !(supported options) then "video/mp4" else options
  options

/-- The stream returned by `canvas.captureStream(60)`: one video track, no
audio tracks. -/
def canvasCaptureStream : MediaStreamModel := { videoTracks := 1, audioTracks := 0 }

/-- `startRecording` (lines 29-142).  Follows the source statement for
statement: early return when a ref is null; reset `error`; throw (caught at
the top) when no 2d context; size the canvas; start the 16ms draw interval;
capture the canvas stream; attempt the audio graph with the failure swallowed
(`combinedStream` falls back to the bare video stream); clear the chunk list;
select the MIME type; construct the recorder (a throw is caught at the top
with the chunk list already cleared and the interval still running); then mark
recording. -/
def startRecording (s : WidgetState) (env : StartEnv) : WidgetState :=
  if !env.videoPresent || !env.canvasPresent then s
  else
    let s1 := { s with recordingState := { s.recordingState with error := none } }
    if !env.ctxAvailable then
      { s1 with recordingState :=
          { s1.recordingState with error := some "Canvas context not available" } }
    else
      let s2 := { s1 with canvasWidth := env.videoWidth, canvasHeight := env.videoHeight }
      let s3 := { s2 with drawIntervalActive := true }
      let videoStream := canvasCaptureStream
      let combinedStream : MediaStreamModel :=
        if env.audioOk then
          { videoTracks := videoStream.videoTracks, audioTracks := env.destAudioTracks }
        else videoStream
      let s4 := { s3 with recordedChunksRef := [] }
      let mime := selectMimeType env.isTypeSupported
      match env.recorderCtorFail with
      | some t =>
          { s4 with recordingState :=
              { s4.recordingState with error := some (thrownMessage t) } }
      | none =>
          let s5 := { s4 with recorderRef := some { stream := combinedStream, mimeType := mime } }
          { s5 with recordingState := { s5.recordingState with isRecording := true } }

/-- The `ondataavailable` handler (lines 104-108): append the fragment to the
chunk list only when its size is strictly positive. -/
def handleDataAvailable (s : WidgetState) (data : Blob) : WidgetState :=
  if 0 < data.size then { s with recordedChunksRef := s.recordedChunksRef ++ [data] } else s

/-- The `onstop` handler (lines 110-131): clear the draw interval if it is
running; take the recorder MIME type with the `|| 'video/webm'` falsy
fallback; build one blob from the chunk list; store it and mark not-recording;
and, when the recorded-video element ref is populated, point it at the blob. -/
def handleStop (s : WidgetState) (recordedVideoPresent : Bool) : WidgetState :=
  let s1 := if s.drawIntervalActive then { s with drawIntervalActive := false } else s
  let rawMime : String :=
    match s1.recorderRef with
    | some r => r.mimeType
    | none => ""
  let mimeType := if rawMime = "" then "video/webm" else rawMime
  let blob : Blob := { data := (s1.recordedChunksRef.map Blob.data).flatten, type := mimeType }
  let s2 := { s1 with recordingState :=
      { s1.recordingState with recordedBlob := some blob, isRecording := false } }
  if recordedVideoPresent then { s2 with playbackBlob := some blob } else s2

/-- `stopRecording` (lines 144-148): it mutates nothing itself; when a
recorder exists and `isRecording` holds it calls `recorder.stop()`, which the
platform answers later by firing the stop handler.  The boolean records
whether `stop()` was called. -/
def stopRecording (s : WidgetState) : WidgetState × Bool :=
  if s.recorderRef.isSome && s.recordingState.isRecording then (s, true) else (s, false)

/-- A stop request together with the stop handler the platform fires in
response (when and only when `recorder.stop()` was actually called). -/
def stopAndFinalize (s : WidgetState) (recordedVideoPresent : Bool) : WidgetState :=
  if (stopRecording s).2 then handleStop (stopRecording s).1 recordedVideoPresent
  else (stopRecording s).1

/-- Whether `sub` occurs at the head of `cs`, character for character. -/
def matchesHead : List Char → List Char → Bool
  | [], _ => true
  | _ :: _, [] => false
  | a :: as, b :: bs => a == b && matchesHead as bs

/-- Whether `sub` occurs contiguously anywhere in the second list. -/
def containsSeq : List Char → List Char → Bool
  | sub, [] => sub.isEmpty
  | sub, c :: rest => matchesHead sub (c :: rest) || containsSeq sub rest

/-- JavaScript `s.includes(sub)`: substring containment. -/
def strIncludes (s sub : String) : Bool := containsSeq sub.toList s.toList

/-- Line 155: `recordedBlob.type.includes('mp4') ? 'mp4' : 'webm'`. -/
def extensionFor (b : Blob) : String := if strIncludes b.type "mp4" then "mp4" else "webm"

/-- Line 156: the download attribute given to the anchor element. -/
def downloadFileName (b : Blob) (now : Nat) : String :=
  "recorded-video-" ++ toString now ++ "." ++ extensionFor b

/-- `downloadRecording` (lines 150-162): when a result blob exists, produce
the filename of the triggered save; otherwise do nothing. -/
def downloadRecording (s : WidgetState) (now : Nat) : Option String :=
  match s.recordingState.recordedBlob with
  | some b => some (downloadFileName b now)
  | none => none

/-- `handleVideoLoad` (lines 164-166). -/
def handleVideoLoad (s : WidgetState) : WidgetState := { s with isVideoLoaded := true }

/-- `handleVideoError` (lines 168-174). -/
def handleVideoError (s : WidgetState) : WidgetState :=
  { s with
      recordingState :=
        { s.recordingState with error := some "Failed to load video. Please check the URL." },
      isVideoLoaded := false }

/-- The URL input `onChange` handler (line 213): it only stores the new text. -/
def handleUrlChange (s : WidgetState) (v : String) : WidgetState := { s with videoUrl := v }

/-- The Load Video button `onClick` handler (line 218): reset the loaded flag. -/
def clickLoadVideo (s : WidgetState) : WidgetState := { s with isVideoLoaded := false }

/-- The `disabled` predicate of the Start Recording button (line 269). -/
def startDisabled (s : WidgetState) : Bool := !s.isVideoLoaded || s.recordingState.isRecording

/-- The `disabled` predicate of the Stop button (line 278). -/
def stopDisabled (s : WidgetState) : Bool := !s.recordingState.isRecording

/-- A user click on Start: a disabled button fires no handler. -/
def clickStart (s : WidgetState) (env : StartEnv) : WidgetState :=
  if startDisabled s then s else startRecording s env

/-- A user click on Stop: a disabled button fires no handler. -/
def clickStop (s : WidgetState) (recordedVideoPresent : Bool) : WidgetState :=
  if stopDisabled s then s else stopAndFinalize s recordedVideoPresent

/-- The state at widget mount (lines 12-27): all flags false, refs empty. -/
def initialWidgetState : WidgetState :=
  { recordingState := { isRecording := false, isPaused := false, recordedBlob := none, error := none },
    videoUrl := "",
    isVideoLoaded := false,
    recorderRef := none,
    drawIntervalActive := false,
    recordedChunksRef := [],
    canvasWidth := 0,
    canvasHeight := 0,
    playbackBlob := none }

/-- The unmount cleanup (lines 176-185): clear the interval if present and
call `recorder.stop()` if a recorder exists (the boolean records the latter). -/
def unmountCleanup (s : WidgetState) : WidgetState × Bool :=
  ({ s with drawIntervalActive := false }, s.recorderRef.isSome)

/-- The error field `startRecording` leaves behind when both refs are present,
as a function of the environment alone: the 2d-context failure message, the
message of a recorder-constructor throw, or no error. -/
def startErrorOutcome (env : StartEnv) : Option String :=
  if !env.ctxAvailable then some "Canvas context not available"
  else
    match env.recorderCtorFail with
    | some t => some (thrownMessage t)
    | none => none

/-- The widget state right after the source video signalled load success. -/
def sLoaded : WidgetState := handleVideoLoad initialWidgetState

/-- An environment where every platform step succeeds and only plain WebM is
supported. -/
def envAllGood : StartEnv :=
  { videoPresent := true, canvasPresent := true, ctxAvailable := true,
    videoWidth := 640, videoHeight := 360, audioOk := true, destAudioTracks := 1,
    isTypeSupported := fun m => m == "video/webm", recorderCtorFail := none }

/-- Same environment except the `MediaRecorder` constructor throws. -/
def envCtorFail : StartEnv :=
  { envAllGood with recorderCtorFail := some (Thrown.errorObj "ctor failed") }

/-- Same environment except audio-graph construction throws. -/
def envNoAudio : StartEnv := { envAllGood with audioOk := false }

/-- `selectMimeType` computes exactly the first supported entry of the
fallback chain, defaulting to plain MP4 when nothing is supported. -/
theorem selectMimeType_eq_findD (supported : String → Bool) :
    selectMimeType supported = (mimeCandidates.find? supported).getD "video/mp4" := by
  unfold selectMimeType mimeCandidates
  cases h1 : supported "video/webm;codecs=vp9,opus" <;>
  cases h2 : supported "video/webm;codecs=vp8,opus" <;>
  cases h3 : supported "video/webm" <;>
  cases h4 : supported "video/mp4" <;>
  simp [List.find?, h1, h2, h3, h4]

/-- Claim C1: the spec says a failed start leaves no observable recording
state, in particular no running frame-copy timer.  Evaluating the code on a
start attempt where the recorder constructor throws shows the error is indeed
caught, a single message is set and `isRecording` stays false, but the 16ms
draw interval started earlier in the routine is left running: the catch block
never clears it.  This contradicts the Frame Mirror contract of the spec. -/
theorem C1_failedStartLeavesTimerRunning :
    (clickStart sLoaded envCtorFail).recordingState.isRecording = false
    ∧ (clickStart sLoaded envCtorFail).recordingState.error = some "ctor failed"
    ∧ (clickStart sLoaded envCtorFail).drawIntervalActive = true :=
  ⟨rfl, rfl, rfl⟩

/-- Claim C2: encoding selection probes the fallback chain in priority order
and whenever some candidate is supported the first supported one is the MIME
type of the constructed recorder; when the constructor throws instead, the
start attempt ends with the thrown message as the error, `isRecording`
unchanged and no recorder stored. -/
theorem C2_codecPriorityAndCtorFailure :
    (∀ (supported : String → Bool) (m : String),
        mimeCandidates.find? supported = some m → selectMimeType supported = m)
    ∧ (∀ (s : WidgetState) (env : StartEnv),
        env.videoPresent = true → env.canvasPresent = true → env.ctxAvailable = true →
        env.recorderCtorFail = none →
        Option.map MediaRecorderModel.mimeType (startRecording s env).recorderRef
          = some (selectMimeType env.isTypeSupported))
    ∧ (∀ (s : WidgetState) (env : StartEnv) (t : Thrown),
        env.videoPresent = true → env.canvasPresent = true → env.ctxAvailable = true →
        env.recorderCtorFail = some t →
        (startRecording s env).recordingState.error = some (thrownMessage t)
        ∧ (startRecording s env).recordingState.isRecording = s.recordingState.isRecording
        ∧ (startRecording s env).recorderRef = s.recorderRef) := by
  refine ⟨?_, ?_, ?_⟩
  · intro supported m h
    rw [selectMimeType_eq_findD, h]
    rfl
  · intro s env h1 h2 h3 h4
    unfold startRecording
    simp [h1, h2, h3, h4]
  · intro s env t h1 h2 h3 h4
    unfold startRecording
    simp [h1, h2, h3, h4]

/-- Witness for C2 at concrete inputs: plain WebM is the first supported
candidate and is the constructed recorder MIME type; a throwing constructor
surfaces its message. -/
theorem C2_codecPriorityAndCtorFailure_witness :
    selectMimeType envAllGood.isTypeSupported = "video/webm"
    ∧ Option.map MediaRecorderModel.mimeType (startRecording sLoaded envAllGood).recorderRef
        = some (selectMimeType envAllGood.isTypeSupported)
    ∧ (startRecording sLoaded envCtorFail).recordingState.error
        = some (thrownMessage (Thrown.errorObj "ctor failed")) :=
  ⟨C2_codecPriorityAndCtorFailure.1 envAllGood.isTypeSupported "video/webm" rfl,
   C2_codecPriorityAndCtorFailure.2.1 sLoaded envAllGood rfl rfl rfl rfl,
   (C2_codecPriorityAndCtorFailure.2.2 sLoaded envCtorFail (Thrown.errorObj "ctor failed")
      rfl rfl rfl rfl).1⟩

/-- Claim C3: when audio-graph construction throws and everything else
succeeds, the start completes with no error and `isRecording` true, the
recorder records the bare canvas stream (one video track, zero audio tracks),
and the session still finalizes: after any fragment delivery the stop handler
produces a result blob while the error field stays unset. -/
theorem C3_audioFailureSwallowed :
    ∀ (s : WidgetState) (env : StartEnv),
      env.videoPresent = true → env.canvasPresent = true → env.ctxAvailable = true →
      env.audioOk = false → env.recorderCtorFail = none →
      (startRecording s env).recordingState.error = none
      ∧ (startRecording s env).recordingState.isRecording = true
      ∧ (startRecording s env).recorderRef
          = some { stream := canvasCaptureStream, mimeType := selectMimeType env.isTypeSupported }
      ∧ (∀ (frag : Blob) (rvp : Bool),
          ((handleStop (handleDataAvailable (startRecording s env) frag)
              rvp).recordingState.recordedBlob).isSome = true
          ∧ (handleStop (handleDataAvailable (startRecording s env) frag)
              rvp).recordingState.error = none) := by
  intro s env h1 h2 h3 h4 h5
  unfold startRecording
  simp only [h1, h2, h3, h4, h5, Bool.not_true, Bool.false_or, Bool.or_false, if_neg,
    Bool.not_false, if_false, ite_false, ite_true, Bool.false_eq_true, not_false_eq_true]
  refine ⟨trivial, trivial, trivial, ?_⟩
  intro frag rvp
  unfold handleDataAvailable handleStop
  by_cases hf : 0 < frag.size <;> simp [hf] <;> split <;> simp

/-- Witness for C3: a concrete audio-failing run starts with no error, records
a video-only stream and still yields a result blob at stop. -/
theorem C3_audioFailureSwallowed_witness :
    (startRecording sLoaded envNoAudio).recordingState.error = none
    ∧ (startRecording sLoaded envNoAudio).recordingState.isRecording = true
    ∧ (startRecording sLoaded envNoAudio).recorderRef
        = some { stream := canvasCaptureStream, mimeType := selectMimeType envNoAudio.isTypeSupported }
    ∧ ((handleStop (handleDataAvailable (startRecording sLoaded envNoAudio)
          { data := [7], type := "" }) true).recordingState.recordedBlob).isSome = true :=
  let h := C3_audioFailureSwallowed sLoaded envNoAudio rfl rfl rfl rfl rfl
  ⟨h.1, h.2.1, h.2.2.1, (h.2.2.2 { data := [7], type := "" } true).1⟩

/-- Claim C4: whenever the stop handler runs with a recorder present that
reports a non-empty MIME type, it leaves the draw-interval timer cleared
(idempotently, since this holds for every prior timer state), marks
not-recording, stores as the result the in-order concatenation of the chunk
list tagged with the recorder MIME type, and, when the playback element is
present, points the playback element at that same blob. -/
theorem C4_stopHandlerFinalizes :
    ∀ (s : WidgetState) (rvp : Bool) (r : MediaRecorderModel),
      s.recorderRef = some r → r.mimeType ≠ "" →
      (handleStop s rvp).drawIntervalActive = false
      ∧ (handleStop s rvp).recordingState.isRecording = false
      ∧ (handleStop s rvp).recordingState.recordedBlob
          = some { data := (s.recordedChunksRef.map Blob.data).flatten, type := r.mimeType }
      ∧ (rvp = true →
          (handleStop s rvp).playbackBlob
            = some { data := (s.recordedChunksRef.map Blob.data).flatten, type := r.mimeType }) := by
  intro s rvp r hr hne
  unfold handleStop
  by_cases hd : s.drawIntervalActive <;> by_cases hv : rvp = true <;>
    simp [hd, hv, hr, hne]

/-- Witness for C4: stopping a concretely started session clears the timer and
marks not-recording. -/
theorem C4_stopHandlerFinalizes_witness :
    (handleStop (startRecording sLoaded envAllGood) true).recordingState.isRecording = false
    ∧ (handleStop (startRecording sLoaded envAllGood) true).drawIntervalActive = false :=
  let h := C4_stopHandlerFinalizes (startRecording sLoaded envAllGood) true
    { stream := { videoTracks := 1, audioTracks := 1 }, mimeType := "video/webm" }
    rfl (by decide)
  ⟨h.2.1, h.1⟩

/-- Claim C5: the download produces `recorded-video-<now>.<ext>` where the
extension is mp4 exactly when the result blob MIME type contains the substring
mp4, and webm exactly otherwise; for a state holding that result blob, the
download action yields exactly that filename. -/
theorem C5_downloadFilenameExtension :
    ∀ (b : Blob) (now : Nat),
      downloadFileName b now = "recorded-video-" ++ toString now ++ "." ++ extensionFor b
      ∧ (extensionFor b = "mp4" ↔ strIncludes b.type "mp4" = true)
      ∧ (extensionFor b = "webm" ↔ strIncludes b.type "mp4" = false)
      ∧ (∀ s : WidgetState, s.recordingState.recordedBlob = some b →
          downloadRecording s now = some (downloadFileName b now)) := by
  intro b now
  refine ⟨rfl, ?_, ?_, ?_⟩
  · unfold extensionFor
    cases h : strIncludes b.type "mp4" <;> simp
  · unfold extensionFor
    cases h : strIncludes b.type "mp4" <;> simp
  · intro s hs
    unfold downloadRecording
    rw [hs]

/-- A concrete MP4-typed result blob. -/
def blobMp4 : Blob := { data := [1, 2], type := "video/mp4" }

/-- A widget state holding `blobMp4` as its result. -/
def sWithResult : WidgetState :=
  { initialWidgetState with recordingState :=
      { isRecording := false, isPaused := false, recordedBlob := some blobMp4, error := none } }

/-- Witness for C5: downloading the concrete MP4 result yields its filename. -/
theorem C5_downloadFilenameExtension_witness :
    downloadRecording sWithResult 42 = some (downloadFileName blobMp4 42) :=
  (C5_downloadFilenameExtension blobMp4 42).2.2.2 sWithResult rfl

/-- Claim C6: a Start click in any state where the source is not loaded or a
recording is active changes nothing (the button is disabled, so the handler
never runs), which keeps at most one session active. -/
theorem C6_startNoOpWhenDisabled :
    ∀ (s : WidgetState) (env : StartEnv),
      s.isVideoLoaded = false ∨ s.recordingState.isRecording = true →
      clickStart s env = s := by
  intro s env h
  unfold clickStart startDisabled
  rcases h with h | h <;> simp [h]

/-- Witness for C6: clicking Start at mount (source not loaded) is a no-op. -/
theorem C6_startNoOpWhenDisabled_witness :
    clickStart initialWidgetState envAllGood = initialWidgetState :=
  C6_startNoOpWhenDisabled initialWidgetState envAllGood (Or.inl rfl)

/-- Claim C7: a stop request in any state with no recorder or with
`isRecording` false calls nothing and changes nothing, even counting the stop
handler the platform would fire for a real `stop()` call. -/
theorem C7_stopNoOpWhenNotRecording :
    ∀ (s : WidgetState) (rvp : Bool),
      s.recorderRef = none ∨ s.recordingState.isRecording = false →
      stopAndFinalize s rvp = s ∧ stopRecording s = (s, false) := by
  intro s rvp h
  have hb : (s.recorderRef.isSome && s.recordingState.isRecording) = false := by
    rcases h with h | h <;> simp [h]
  constructor
  · unfold stopAndFinalize stopRecording
    simp [hb]
  · unfold stopRecording
    simp [hb]

/-- Witness for C7: stopping at mount is a no-op. -/
theorem C7_stopNoOpWhenNotRecording_witness :
    stopAndFinalize initialWidgetState true = initialWidgetState :=
  (C7_stopNoOpWhenNotRecording initialWidgetState true (Or.inl rfl)).1

/-- A loaded state carrying a stale error message from an earlier failure. -/
def sWithStaleError : WidgetState :=
  { sLoaded with recordingState :=
      { isRecording := false, isPaused := false, recordedBlob := none,
        error := some "old failure" } }

/-- An otherwise-good environment in which the video element ref is null. -/
def envVideoRefMissing : StartEnv := { envAllGood with videoPresent := false }

/-- Counterexample to C8 as stated: a start attempt that hits the early
`!video || !canvas` return happens before the error reset, so the stale error
message survives the attempt — not every start attempt clears the error. -/
theorem C8_staleErrorSurvivesRefMissingStart :
    (clickStart sWithStaleError envVideoRefMissing).recordingState.error
      = some "old failure" := rfl

/-- Claim C8 (amended): every start attempt in which both the video and canvas
refs are present clears the stored error before any fallible step runs — the
error field after the attempt is a function of the environment alone and never
depends on the previous error. -/
theorem C8_errorResetOnStartWithRefs :
    ∀ (s : WidgetState) (env : StartEnv),
      env.videoPresent = true → env.canvasPresent = true →
      (startRecording s env).recordingState.error = startErrorOutcome env := by
  intro s env h1 h2
  unfold startRecording startErrorOutcome
  by_cases h3 : env.ctxAvailable
  · cases h4 : env.recorderCtorFail <;> simp [h1, h2, h3, h4]
  · simp [h1, h2, h3]

/-- Witness for C8 (amended): a start with refs present wipes the concrete
stale error and ends with no error. -/
theorem C8_errorResetOnStartWithRefs_witness :
    (startRecording sWithStaleError envAllGood).recordingState.error
      = startErrorOutcome envAllGood :=
  C8_errorResetOnStartWithRefs sWithStaleError envAllGood rfl rfl

/-- Counterexample to C9 as stated: typing a new URL into the input (the
`onChange` handler) updates the URL but leaves the loaded flag true — changing
the source URL does not reset the loaded flag. -/
theorem C9_urlChangeKeepsLoadedFlag :
    (handleUrlChange sLoaded "https://example.com/other.mp4").videoUrl
      = "https://example.com/other.mp4"
    ∧ (handleUrlChange sLoaded "https://example.com/other.mp4").isVideoLoaded = true :=
  ⟨rfl, rfl⟩

/-- Claim C9 (amended): the URL `onChange` handler never touches the loaded
flag; it is the Load Video button that resets the flag to false, after which a
Start click is a no-op until the media element re-signals load success (which
sets the flag back to true). -/
theorem C9_loadButtonResetsLoadedFlag :
    ∀ (s : WidgetState) (v : String),
      (handleUrlChange s v).isVideoLoaded = s.isVideoLoaded
      ∧ (handleUrlChange s v).videoUrl = v
      ∧ (clickLoadVideo s).isVideoLoaded = false
      ∧ (handleVideoLoad s).isVideoLoaded = true
      ∧ (∀ env : StartEnv, clickStart (clickLoadVideo s) env = clickLoadVideo s) := by
  intro s v
  refine ⟨rfl, rfl, rfl, rfl, ?_⟩
  intro env
  unfold clickStart startDisabled clickLoadVideo
  simp

/-- Claim C10: the data handler drops zero-size fragments and appends positive
ones at the end, so the all-fragments-non-empty invariant of the chunk list is
preserved by every delivery. -/
theorem C10_dataHandlerDiscardsEmptyFragments :
    ∀ (s : WidgetState) (b : Blob),
      (b.size = 0 → handleDataAvailable s b = s)
      ∧ (0 < b.size →
          (handleDataAvailable s b).recordedChunksRef = s.recordedChunksRef ++ [b])
      ∧ ((∀ c ∈ s.recordedChunksRef, 0 < c.size) →
          ∀ c ∈ (handleDataAvailable s b).recordedChunksRef, 0 < c.size) := by
  intro s b
  refine ⟨?_, ?_, ?_⟩
  · intro h
    unfold handleDataAvailable
    simp [h]
  · intro h
    unfold handleDataAvailable
    simp [h]
  · intro hall c hc
    unfold handleDataAvailable at hc
    by_cases h : 0 < b.size
    · simp [h] at hc
      rcases hc with hc | hc
      · exact hall c hc
      · rw [hc]
        exact h
    · simp [h] at hc
      exact hall c hc

/-- Witness for C10: a zero-size fragment is dropped and a one-byte fragment
is appended. -/
theorem C10_dataHandlerDiscardsEmptyFragments_witness :
    handleDataAvailable initialWidgetState { data := [], type := "" } = initialWidgetState
    ∧ (handleDataAvailable initialWidgetState
        { data := [5], type := "" }).recordedChunksRef = [{ data := [5], type := "" }] :=
  ⟨(C10_dataHandlerDiscardsEmptyFragments initialWidgetState { data := [], type := "" }).1 rfl,
   (C10_dataHandlerDiscardsEmptyFragments initialWidgetState
      { data := [5], type := "" }).2.1 (by decide)⟩

end RecordVideoTag
